import Mathlib

/-!
Shallow embedding of the TextfitDiv Polymer custom element
(src/textfit-div.js and src/unnamed/part_000).

The component is a thin adapter around the external textFit library:
it declares twelve configuration properties, observes attach/detach,
text changes and iron-resize events, and forwards them through
this.async into a single guarded call doFitMe, which either skips
(detached, empty text, zero measured size) or invokes textFit inside
a try/catch that reduces any exception to console.warn.

The embedding below mirrors the source:
* Props      - the twelve declared properties with their defaults;
* FitMeEl    - the observable state of the #fitMe container element
               that doFitMe reads (innerHTML, clientHeight, clientWidth);
* TextFitOptions - the options record passed to textFit;
* the external textFit routine is an oracle of type
  FitMeEl -> TextFitOptions -> Except String Unit (Except.error models a
  thrown exception, the String being the exception value);
* doFitMe    - the guarded call, returning the resulting property state
               plus the lists of textFit invocations, console.warn and
               console.debug messages it produced;
* World      - a component instance together with its microtask queue:
               pendingFits counts callbacks scheduled via
               this.async(this.doFitMe), and calls/warns/debugs
               accumulate the observable effects;
* the event handlers attached, detached, textChanged (the observer of
  the text property), onIronResize, and tick, which drains the
  microtask queue by executing each scheduled doFitMe in order.
-/

namespace TextfitDiv

/-- The twelve properties declared in `static get properties()`
(src/textfit-div.js lines 46-183). -/
structure Props where
  text : String
  isAttached : Bool
  horizontalCenter : Bool
  verticalCenter : Bool
  multiLine : Bool
  detectMultiLine : Bool
  minFontSize : Int
  maxFontSize : Int
  reProcess : Bool
  widthOnly : Bool
  manualFire : Bool
  alignVertWithFlexbox : Bool
  deriving DecidableEq, Repr

/-- Default values of the properties, from the `value:` fields of the
property declarations. -/
def defaultProps : Props where
  text := ""
  isAttached := false
  horizontalCenter := false
  verticalCenter := false
  multiLine := false
  detectMultiLine := true
  minFontSize := 6
  maxFontSize := 200
  reProcess := true
  widthOnly := false
  manualFire := false
  alignVertWithFlexbox := false

/-- The state of the `#fitMe` container element that doFitMe reads:
its innerHTML and its measured clientHeight/clientWidth. -/
structure FitMeEl where
  innerHTML : String
  clientHeight : Int
  clientWidth : Int
  deriving DecidableEq, Repr

/-- The options record built in doFitMe and passed to textFit
(src/textfit-div.js lines 237-247). -/
structure TextFitOptions where
  alignHoriz : Bool
  alignVert : Bool
  multiLine : Bool
  detectMultiLine : Bool
  minFontSize : Int
  maxFontSize : Int
  reProcess : Bool
  widthOnly : Bool
  alignVertWithFlexbox : Bool
  deriving DecidableEq, Repr

/-- The external textFit routine, modelled as an oracle: Except.ok is a
normal return, Except.error e models textFit throwing the exception e. -/
def TextFitOracle : Type := FitMeEl → TextFitOptions → Except String Unit

/-- The options record doFitMe constructs from the current properties. -/
def mkOptions (p : Props) : TextFitOptions where
  alignHoriz := p.horizontalCenter
  alignVert := p.verticalCenter
  multiLine := p.multiLine
  detectMultiLine := p.detectMultiLine
  minFontSize := p.minFontSize
  maxFontSize := p.maxFontSize
  reProcess := p.reProcess
  widthOnly := p.widthOnly
  alignVertWithFlexbox := p.alignVertWithFlexbox

/-- The console.debug message emitted when the container has no size. -/
def noSizeMsg : String :=
  "textfit-div has no size yet, therefore the text can not be fitted."

/-- Result of one doFitMe execution: the property state afterwards and
the observable effects (textFit invocations with their arguments,
console.warn messages, console.debug messages), each in order. -/
structure FitResult where
  props : Props
  calls : List (FitMeEl × TextFitOptions)
  warns : List String
  debugs : List String
  deriving DecidableEq, Repr

/-- doFitMe (src/textfit-div.js lines 227-251): return if detached; return
if the container text is empty; return (after console.debug) if the
measured height or width is not positive; otherwise call textFit once
with the container and the options record, catching any exception and
reducing it to console.warn. -/
def doFitMe (tf : TextFitOracle) (p : Props) (el : FitMeEl) : FitResult :=
  if !p.isAttached then
    ⟨p, [], [], []⟩
  else if el.innerHTML.length < 1 then
    ⟨p, [], [], []⟩
  else if el.clientHeight ≤ 0 ∨ el.clientWidth ≤ 0 then
    ⟨p, [], [], [noSizeMsg]⟩
  else
    match tf el (mkOptions p) with
    | Except.ok _ => ⟨p, [(el, mkOptions p)], [], []⟩
    | Except.error e => ⟨p, [(el, mkOptions p)], [e], []⟩

/-- The DOM the component owns: the #fitMe container and, when present,
the innerHTML of the span with class textFitted that the textFit library
inserts (queried by _textChanged). -/
structure Dom where
  fitMe : FitMeEl
  textFittedSpan : Option String
  deriving DecidableEq, Repr

/-- A component instance with its scheduling and effect state:
pendingFits counts the doFitMe callbacks currently scheduled through
this.async; calls, warns and debugs accumulate the observable effects
of all doFitMe executions so far. -/
structure World where
  props : Props
  dom : Dom
  pendingFits : Nat
  calls : List (FitMeEl × TextFitOptions)
  warns : List String
  debugs : List String
  deriving DecidableEq, Repr

/-- Execute doFitMe on the current world, appending its effects. -/
def doFitMeW (tf : TextFitOracle) (w : World) : World :=
  let r := doFitMe tf w.props w.dom.fitMe
  { w with
    props := r.props
    calls := w.calls ++ r.calls
    warns := w.warns ++ r.warns
    debugs := w.debugs ++ r.debugs }

/-- The attached lifecycle callback (src/textfit-div.js lines 189-198):
set isAttached, then, unless manualFire, schedule doFitMe via this.async. -/
def attached (w : World) : World :=
  let w1 := { w with props := { w.props with isAttached := true } }
  if w1.props.manualFire then w1
  else { w1 with pendingFits := w1.pendingFits + 1 }

/-- The detached lifecycle callback (src/textfit-div.js lines 200-203):
clear isAttached. -/
def detached (w : World) : World :=
  { w with props := { w.props with isAttached := false } }

/-- The _textChanged observer (src/textfit-div.js lines 207-215): when the
text actually changed and manualFire is off, copy the new text into the
.textFitted span when one exists and schedule doFitMe via this.async. -/
def textChanged (newText oldText : String) (w : World) : World :=
  if newText ≠ oldText ∧ !w.props.manualFire then
    let dom :=
      match w.dom.textFittedSpan with
      | some _ => { w.dom with textFittedSpan := some newText }
      | none => w.dom
    { w with dom := dom, pendingFits := w.pendingFits + 1 }
  else w

/-- Assigning the text property: Polymer stores the new value and runs the
registered observer _textChanged with the new and old values. -/
def setText (t : String) (w : World) : World :=
  let oldText := w.props.text
  let w1 := { w with props := { w.props with text := t } }
  textChanged t oldText w1

/-- The iron-resize handler onIronResize (src/textfit-div.js lines
219-223): unless manualFire, schedule doFitMe via this.async. -/
def onIronResize (w : World) : World :=
  if w.props.manualFire then w
  else { w with pendingFits := w.pendingFits + 1 }

/-- Drain n scheduled doFitMe callbacks in order. -/
def runFits (tf : TextFitOracle) : Nat → World → World
  | 0, w => w
  | n + 1, w => runFits tf n (doFitMeW tf w)

/-- A microtask tick: every callback scheduled through this.async runs;
each is an execution of doFitMe (Polymer's async runs each scheduled
callback once, in scheduling order). -/
def tick (tf : TextFitOracle) (w : World) : World :=
  runFits tf w.pendingFits { w with pendingFits := 0 }

/-- The external events the component reacts to. -/
inductive Event where
  | attach
  | detach
  | resize
  | setText (t : String)
  | tick
  deriving DecidableEq, Repr

/-- One event step. -/
def step (tf : TextFitOracle) (w : World) : Event → World
  | Event.attach => attached w
  | Event.detach => detached w
  | Event.resize => onIronResize w
  | Event.setText t => setText t w
  | Event.tick => tick tf w

/-- Run a sequence of events. -/
def run (tf : TextFitOracle) : List Event → World → World
  | [], w => w
  | e :: es, w => run tf es (step tf w e)

end TextfitDiv

namespace TextfitDiv

/-- Helper: the number of textFit calls one doFitMe execution makes is 0
when a guard fires and 1 otherwise. -/
lemma doFitMe_calls_len (tf : TextFitOracle) (p : Props) (el : FitMeEl) :
    (doFitMe tf p el).calls.length =
      (if p.isAttached = false ∨ el.innerHTML.length < 1 ∨
          el.clientHeight ≤ 0 ∨ el.clientWidth ≤ 0 then 0 else 1) := by
  unfold doFitMe
  rcases hA : p.isAttached with _ | _
  · simp [hA]
  · by_cases hT : el.innerHTML.length < 1
    · simp [hA, hT, Nat.lt_one_iff.mp hT]
    · by_cases hS : el.clientHeight ≤ 0 ∨ el.clientWidth ≤ 0
      · simp [hA, hT, hS, Nat.lt_one_iff]
      · cases h : tf el (mkOptions p) <;>
          simp [hA, hT, hS, h, Nat.lt_one_iff]

/-- Helper: doFitMe leaves the component properties untouched. -/
lemma doFitMe_props (tf : TextFitOracle) (p : Props) (el : FitMeEl) :
    (doFitMe tf p el).props = p := by
  unfold doFitMe
  split_ifs
  · rfl
  · rfl
  · rfl
  · cases tf el (mkOptions p) <;> rfl

/-- Helper: when the guards pass and textFit throws e, doFitMe produces
exactly one textFit call, the single warning e, and no other effect. -/
lemma doFitMe_error_result (tf : TextFitOracle) (p : Props) (el : FitMeEl)
    (e : String)
    (hA : p.isAttached = true) (hT : 1 ≤ el.innerHTML.length)
    (hH : 0 < el.clientHeight) (hW : 0 < el.clientWidth)
    (hE : tf el (mkOptions p) = Except.error e) :
    doFitMe tf p el = ⟨p, [(el, mkOptions p)], [e], []⟩ := by
  unfold doFitMe
  rw [hA]
  simp only [Bool.not_true, Bool.false_eq_true, if_false]
  rw [if_neg (Nat.not_lt.mpr hT),
    if_neg (by push_neg; exact ⟨hH, hW⟩ :
      ¬(el.clientHeight ≤ 0 ∨ el.clientWidth ≤ 0)), hE]

/-- Helper: every textFit call doFitMe makes carries the fitMe element and
the options record built by mkOptions from the current properties. -/
lemma doFitMe_calls_shape (tf : TextFitOracle) (p : Props) (el : FitMeEl)
    (c : FitMeEl × TextFitOptions) (hc : c ∈ (doFitMe tf p el).calls) :
    c = (el, mkOptions p) := by
  unfold doFitMe at hc
  split_ifs at hc
  · simp at hc
  · simp at hc
  · simp at hc
  · revert hc
    cases tf el (mkOptions p) <;>
      · intro hc
        simpa using hc

/-- Claim C1: for every call to doFitMe, if isAttached is false, or the
fitMe container text is empty (innerHTML.length less than 1), or the
measured clientHeight or clientWidth is not positive, doFitMe returns
without calling textFit; otherwise it calls textFit exactly once. -/
theorem C1_doFitMe_guarded_single_call
    (tf : TextFitOracle) (p : Props) (el : FitMeEl) :
    (doFitMe tf p el).calls.length =
      (if p.isAttached = false ∨ el.innerHTML.length < 1 ∨
          el.clientHeight ≤ 0 ∨ el.clientWidth ≤ 0 then 0 else 1) :=
  doFitMe_calls_len tf p el

/-- Claim C2: when the guards pass and textFit throws an exception e, the
exception is caught and reduced to the single console.warn message e
(doFitMe still returns a FitResult, so nothing propagates), and textFit
was invoked exactly once in that call: no retry. -/
theorem C2_doFitMe_catches_warns_no_retry
    (tf : TextFitOracle) (p : Props) (el : FitMeEl) (e : String)
    (hA : p.isAttached = true) (hT : 1 ≤ el.innerHTML.length)
    (hH : 0 < el.clientHeight) (hW : 0 < el.clientWidth)
    (hE : tf el (mkOptions p) = Except.error e) :
    (doFitMe tf p el).warns = [e] ∧
    (doFitMe tf p el).calls.length = 1 ∧
    (doFitMe tf p el).props = p := by
  rw [doFitMe_error_result tf p el e hA hT hH hW hE]
  exact ⟨rfl, rfl, rfl⟩

/-- A textFit oracle that always throws, for the concrete scenarios. -/
def tfBoom : TextFitOracle := fun _ _ => Except.error "boom"

/-- A textFit oracle that always returns normally. -/
def tfOk : TextFitOracle := fun _ _ => Except.ok ()

/-- A concrete fitMe element with text and a positive measured size. -/
def el0 : FitMeEl := ⟨"hi", 20, 40⟩

/-- A concrete attached property state. -/
def pAttached : Props := { defaultProps with isAttached := true, text := "hi" }

/-- Witness for C2 at a concrete throwing oracle. -/
theorem C2_witness :
    (doFitMe tfBoom pAttached el0).warns = ["boom"] ∧
    (doFitMe tfBoom pAttached el0).calls.length = 1 ∧
    (doFitMe tfBoom pAttached el0).props = pAttached :=
  C2_doFitMe_catches_warns_no_retry tfBoom pAttached el0 "boom"
    (by decide) (by decide) (by decide) (by decide) rfl

/-- Claim C4: every invocation of textFit receives the fitMe element and
an options record whose fields are the current property values, passed
through unchanged. -/
theorem C4_options_passthrough
    (tf : TextFitOracle) (p : Props) (el : FitMeEl)
    (c : FitMeEl × TextFitOptions) (hc : c ∈ (doFitMe tf p el).calls) :
    c.1 = el ∧
    c.2.alignHoriz = p.horizontalCenter ∧
    c.2.alignVert = p.verticalCenter ∧
    c.2.multiLine = p.multiLine ∧
    c.2.detectMultiLine = p.detectMultiLine ∧
    c.2.minFontSize = p.minFontSize ∧
    c.2.maxFontSize = p.maxFontSize ∧
    c.2.reProcess = p.reProcess ∧
    c.2.widthOnly = p.widthOnly ∧
    c.2.alignVertWithFlexbox = p.alignVertWithFlexbox := by
  rw [doFitMe_calls_shape tf p el c hc]
  exact ⟨rfl, rfl, rfl, rfl, rfl, rfl, rfl, rfl, rfl, rfl⟩

/-- Witness for C4 at a concrete call. -/
theorem C4_witness :
    (el0, mkOptions pAttached) ∈ (doFitMe tfOk pAttached el0).calls ∧
    (el0, mkOptions pAttached).2.alignHoriz = pAttached.horizontalCenter ∧
    (el0, mkOptions pAttached).2.minFontSize = pAttached.minFontSize := by
  have hmem : (el0, mkOptions pAttached) ∈ (doFitMe tfOk pAttached el0).calls := by
    decide
  have h := C4_options_passthrough tfOk pAttached el0 (el0, mkOptions pAttached) hmem
  exact ⟨hmem, h.2.1, h.2.2.2.2.2.1⟩

/-- Helper: executing one scheduled doFitMe changes neither the
properties, nor the DOM, nor the pending queue. -/
lemma doFitMeW_frame (tf : TextFitOracle) (w : World) :
    (doFitMeW tf w).props = w.props ∧ (doFitMeW tf w).dom = w.dom ∧
      (doFitMeW tf w).pendingFits = w.pendingFits :=
  ⟨doFitMe_props tf w.props w.dom.fitMe, rfl, rfl⟩

/-- Helper: draining n scheduled doFitMe callbacks changes neither the
properties nor the DOM. -/
lemma runFits_frame (tf : TextFitOracle) (n : Nat) (w : World) :
    (runFits tf n w).props = w.props ∧ (runFits tf n w).dom = w.dom := by
  induction n generalizing w with
  | zero => exact ⟨rfl, rfl⟩
  | succ n ih =>
      rw [runFits]
      rcases ih (doFitMeW tf w) with ⟨h1, h2⟩
      exact ⟨h1.trans (doFitMeW_frame tf w).1, h2.trans (doFitMeW_frame tf w).2.1⟩

/-- Helper: a tick preserves the properties and the DOM. -/
lemma tick_frame (tf : TextFitOracle) (w : World) :
    (tick tf w).props = w.props ∧ (tick tf w).dom = w.dom :=
  runFits_frame tf w.pendingFits { w with pendingFits := 0 }

/-- Helper: when the component is detached, a doFitMe execution makes no
textFit call and emits nothing. -/
lemma doFitMeW_detached (tf : TextFitOracle) (w : World)
    (h : w.props.isAttached = false) : doFitMeW tf w = w := by
  unfold doFitMeW doFitMe
  rw [h]
  simp

/-- Helper: when the component is detached, draining the queue is a
no-op on everything but the counter. -/
lemma runFits_detached (tf : TextFitOracle) (n : Nat) (w : World)
    (h : w.props.isAttached = false) : runFits tf n w = w := by
  induction n generalizing w with
  | zero => rfl
  | succ n ih =>
      rw [runFits, doFitMeW_detached tf w h]
      exact ih w h

/-- Helper: setText leaves every property except text unchanged, in
particular isAttached. -/
lemma setText_isAttached (t : String) (w : World) :
    (setText t w).props.isAttached = w.props.isAttached := by
  unfold setText textChanged
  dsimp only
  split_ifs <;> rfl

/-- Helper: no handler performs a synchronous textFit call: the call log
is untouched by attached, onIronResize, setText and detached. -/
lemma handlers_calls (w : World) (t : String) :
    (attached w).calls = w.calls ∧ (onIronResize w).calls = w.calls ∧
    (setText t w).calls = w.calls ∧ (detached w).calls = w.calls := by
  refine ⟨?_, ?_, ?_, rfl⟩
  · unfold attached
    dsimp only
    split_ifs <;> rfl
  · unfold onIronResize
    split_ifs <;> rfl
  · unfold setText textChanged
    dsimp only
    split_ifs <;> rfl

/-- Claim C5: event handlers never invoke textFit synchronously: the
attached, text-change and iron-resize handlers leave the textFit call log
unchanged, and (when manualFire is false) the attach and resize handlers
merely schedule one more asynchronous doFitMe, which only a later tick
executes. -/
theorem C5_handlers_only_schedule (w : World) (t : String)
    (hm : w.props.manualFire = false) :
    (attached w).calls = w.calls ∧
    (onIronResize w).calls = w.calls ∧
    (setText t w).calls = w.calls ∧
    (attached w).pendingFits = w.pendingFits + 1 ∧
    (onIronResize w).pendingFits = w.pendingFits + 1 := by
  have h := handlers_calls w t
  refine ⟨h.1, h.2.1, h.2.2.1, ?_, ?_⟩
  · unfold attached
    rw [if_neg (by simp [hm])]
  · unfold onIronResize
    rw [if_neg (by simp [hm])]

/-- A concrete world: attached, automatic firing, fitMe with text and a
positive size, empty queue and logs. -/
def w0 : World :=
  { props := pAttached
    dom := { fitMe := el0, textFittedSpan := none }
    pendingFits := 0
    calls := []
    warns := []
    debugs := [] }

/-- Witness for C5 at the concrete world w0. -/
theorem C5_witness :
    (attached w0).calls = w0.calls ∧
    (onIronResize w0).calls = w0.calls ∧
    (setText "bye" w0).calls = w0.calls ∧
    (attached w0).pendingFits = w0.pendingFits + 1 ∧
    (onIronResize w0).pendingFits = w0.pendingFits + 1 :=
  C5_handlers_only_schedule w0 "bye" (by decide)

/-- Claim C6: attached sets isAttached and detached clears it while no
other operation changes it; detach does not cancel the pending queue (no
cancellation semantics), and a doFitMe scheduled before detach but drained
after it is skipped: a tick in a detached state makes no textFit call. -/
theorem C6_isAttached_lifecycle (tf : TextFitOracle) (w : World) (t : String) :
    (attached w).props.isAttached = true ∧
    (detached w).props.isAttached = false ∧
    (onIronResize w).props.isAttached = w.props.isAttached ∧
    (setText t w).props.isAttached = w.props.isAttached ∧
    (tick tf w).props.isAttached = w.props.isAttached ∧
    (detached w).pendingFits = w.pendingFits ∧
    (w.props.isAttached = false → (tick tf w).calls = w.calls) := by
  refine ⟨?_, rfl, ?_, setText_isAttached t w, ?_, rfl, ?_⟩
  · unfold attached
    dsimp only
    split_ifs <;> rfl
  · unfold onIronResize
    split_ifs <;> rfl
  · rw [congrArg Props.isAttached (tick_frame tf w).1]
  · intro hdet
    unfold tick
    rw [runFits_detached tf w.pendingFits { w with pendingFits := 0 } hdet]

/-- A concrete detached world with three stale scheduled doFitMe
callbacks. -/
def wDet : World := { w0 with
  props := { pAttached with isAttached := false }
  pendingFits := 3 }

/-- Witness for C6 at the concrete detached world wDet. -/
theorem C6_witness :
    (attached wDet).props.isAttached = true ∧
    (detached wDet).props.isAttached = false ∧
    (onIronResize wDet).props.isAttached = wDet.props.isAttached ∧
    (setText "bye" wDet).props.isAttached = wDet.props.isAttached ∧
    (tick tfOk wDet).props.isAttached = wDet.props.isAttached ∧
    (detached wDet).pendingFits = wDet.pendingFits ∧
    (tick tfOk wDet).calls = wDet.calls := by
  have h := C6_isAttached_lifecycle tfOk wDet "bye"
  exact ⟨h.1, h.2.1, h.2.2.1, h.2.2.2.1, h.2.2.2.2.1, h.2.2.2.2.2.1,
    h.2.2.2.2.2.2 (by decide)⟩

/-- Claim C7: doFitMe is read-only on the component configuration: it
returns the twelve properties unchanged (hence unchanged even when
textFit throws), and at the world level it also leaves the DOM and the
pending queue alone. -/
theorem C7_doFitMe_frame (tf : TextFitOracle) (p : Props) (el : FitMeEl)
    (w : World) :
    (doFitMe tf p el).props = p ∧
    (doFitMeW tf w).props = w.props ∧
    (doFitMeW tf w).dom = w.dom ∧
    (doFitMeW tf w).pendingFits = w.pendingFits :=
  ⟨doFitMe_props tf p el, (doFitMeW_frame tf w).1, (doFitMeW_frame tf w).2.1,
    (doFitMeW_frame tf w).2.2⟩

/-- Claim C8: with manualFire set, no automatic fit is ever scheduled:
attach still records attachment but schedules nothing, the iron-resize
handler is the identity, and a text change updates only the text and the
fitted span, scheduling nothing; the call log never grows. -/
theorem C8_manualFire_suppresses_auto (w : World) (t : String)
    (hm : w.props.manualFire = true) :
    (attached w).pendingFits = w.pendingFits ∧
    (attached w).props.isAttached = true ∧
    onIronResize w = w ∧
    (setText t w).pendingFits = w.pendingFits ∧
    (attached w).calls = w.calls ∧
    (setText t w).calls = w.calls := by
  have h := handlers_calls w t
  refine ⟨?_, ?_, ?_, ?_, h.1, h.2.2.1⟩
  · unfold attached
    rw [if_pos (by simpa using hm)]
  · unfold attached
    dsimp only
    split_ifs
    rfl
  · unfold onIronResize
    rw [if_pos hm]
  · unfold setText textChanged
    rw [if_neg (by simp [hm])]

/-- A concrete world with manualFire set. -/
def wMan : World := { w0 with props := { pAttached with manualFire := true } }

/-- Witness for C8 at the concrete manual world wMan. -/
theorem C8_witness :
    (attached wMan).pendingFits = wMan.pendingFits ∧
    (attached wMan).props.isAttached = true ∧
    onIronResize wMan = wMan ∧
    (setText "bye" wMan).pendingFits = wMan.pendingFits ∧
    (attached wMan).calls = wMan.calls ∧
    (setText "bye" wMan).calls = wMan.calls :=
  C8_manualFire_suppresses_auto wMan "bye" (by decide)

/-- Claim C9: the text observer schedules a refit exactly when the text
really changed and manualFire is off; in that step it first copies the
new text into the .textFitted span when one exists (the scheduled doFitMe
runs only at a later tick); when the new text equals the old one (or
manualFire is set) it changes nothing and schedules nothing. -/
theorem C9_textChanged_behavior (w : World) (t u : String) :
    (t = u ∨ w.props.manualFire = true → textChanged t u w = w) ∧
    (t ≠ u → w.props.manualFire = false →
      (textChanged t u w).pendingFits = w.pendingFits + 1 ∧
      (textChanged t u w).calls = w.calls ∧
      (textChanged t u w).props = w.props ∧
      (textChanged t u w).dom.fitMe = w.dom.fitMe ∧
      (∀ s, w.dom.textFittedSpan = some s →
        (textChanged t u w).dom.textFittedSpan = some t) ∧
      (w.dom.textFittedSpan = none →
        (textChanged t u w).dom.textFittedSpan = none)) := by
  constructor
  · intro h
    unfold textChanged
    rcases h with h | h
    · rw [if_neg (by simp [h])]
    · rw [if_neg (by simp [h])]
  · intro hne hm
    unfold textChanged
    rw [if_pos ⟨hne, by simp [hm]⟩]
    refine ⟨rfl, rfl, rfl, ?_, ?_, ?_⟩
    · cases h : w.dom.textFittedSpan <;> simp [h]
    · intro s hs
      simp [hs]
    · intro hs
      simp [hs]

/-- Witness for C9 at concrete texts and the concrete world w0. -/
theorem C9_witness :
    (textChanged "hi" "hi" w0 = w0) ∧
    (textChanged "bye" "hi" w0).pendingFits = w0.pendingFits + 1 ∧
    (textChanged "bye" "hi" w0).dom.textFittedSpan = none :=
  ⟨(C9_textChanged_behavior w0 "hi" "hi").1 (Or.inl rfl),
    ((C9_textChanged_behavior w0 "bye" "hi").2 (by decide) (by decide)).1,
    ((C9_textChanged_behavior w0 "bye" "hi").2 (by decide) (by decide)).2.2.2.2.2
      rfl⟩

/-- Helper: with automatic firing, the iron-resize handler queues exactly
one more doFitMe. -/
lemma onIronResize_auto (w : World) (hm : w.props.manualFire = false) :
    onIronResize w = { w with pendingFits := w.pendingFits + 1 } := by
  unfold onIronResize
  rw [if_neg (by simp [hm])]

/-- Helper: running a concatenation of event lists runs the first, then
the second. -/
lemma run_append (tf : TextFitOracle) (es fs : List Event) (w : World) :
    run tf (es ++ fs) w = run tf fs (run tf es w) := by
  induction es generalizing w with
  | nil => rfl
  | cons e es ih =>
      rw [List.cons_append, run, run]
      exact ih (step tf w e)

/-- Helper: assigning a really different text with automatic firing
queues exactly one doFitMe, stores the new text and changes nothing else
that the fit reads. -/
lemma setText_changed (t : String) (w : World)
    (hne : t ≠ w.props.text) (hm : w.props.manualFire = false) :
    (setText t w).pendingFits = w.pendingFits + 1 ∧
    (setText t w).calls = w.calls ∧
    (setText t w).props.text = t ∧
    (setText t w).props.manualFire = w.props.manualFire ∧
    (setText t w).props.isAttached = w.props.isAttached ∧
    (setText t w).dom.fitMe = w.dom.fitMe := by
  unfold setText textChanged
  dsimp only
  rw [if_pos ⟨hne, by show (!w.props.manualFire) = true; simp [hm]⟩]
  refine ⟨rfl, rfl, rfl, rfl, rfl, ?_⟩
  cases h : w.dom.textFittedSpan <;> simp [h]

/-- A pre-tick burst made of iron-resize events and text-content-change
events: every element is a resize or a setText, and each setText really
changes the text as it stands at that point (s is the text when the burst
starts). -/
def changesEachTime : List Event → String → Bool
  | [], _ => true
  | Event.resize :: es, s => changesEachTime es s
  | Event.setText t :: es, s => (t != s) && changesEachTime es t
  | _ :: _, _ => false

/-- Helper: a pre-tick burst of resize and text-change events queues one
doFitMe per event and leaves the call log, the attachment flag and the
fitMe element untouched. -/
lemma run_sched_events (tf : TextFitOracle) (es : List Event) (w : World)
    (hm : w.props.manualFire = false)
    (hok : changesEachTime es w.props.text = true) :
    (run tf es w).pendingFits = w.pendingFits + es.length ∧
    (run tf es w).calls = w.calls ∧
    (run tf es w).props.isAttached = w.props.isAttached ∧
    (run tf es w).dom.fitMe = w.dom.fitMe := by
  induction es generalizing w with
  | nil => exact ⟨by simp [run], rfl, rfl, rfl⟩
  | cons e es ih =>
      cases e with
      | attach => simp [changesEachTime] at hok
      | detach => simp [changesEachTime] at hok
      | tick => simp [changesEachTime] at hok
      | resize =>
          simp only [changesEachTime] at hok
          rw [run, show step tf w Event.resize = onIronResize w from rfl,
            onIronResize_auto w hm]
          have h := ih { w with pendingFits := w.pendingFits + 1 } hm hok
          refine ⟨?_, h.2.1, h.2.2.1, h.2.2.2⟩
          rw [h.1]
          show w.pendingFits + 1 + es.length = w.pendingFits + (es.length + 1)
          omega
      | setText t =>
          simp only [changesEachTime, Bool.and_eq_true, bne_iff_ne] at hok
          rw [run, show step tf w (Event.setText t) = setText t w from rfl]
          have hst := setText_changed t w hok.1 hm
          have h := ih (setText t w) (hst.2.2.2.1.trans hm)
            (by rw [hst.2.2.1]; exact hok.2)
          refine ⟨?_, h.2.1.trans hst.2.1, h.2.2.1.trans hst.2.2.2.2.1,
            h.2.2.2.trans hst.2.2.2.2.2⟩
          rw [h.1, hst.1]
          show w.pendingFits + 1 + es.length = w.pendingFits + (es.length + 1)
          omega

/-- Helper: when the guards pass, one doFitMe execution appends exactly
one textFit call. -/
lemma doFitMeW_calls_len_ready (tf : TextFitOracle) (w : World)
    (hA : w.props.isAttached = true) (hT : 1 ≤ w.dom.fitMe.innerHTML.length)
    (hH : 0 < w.dom.fitMe.clientHeight) (hW : 0 < w.dom.fitMe.clientWidth) :
    (doFitMeW tf w).calls.length = w.calls.length + 1 := by
  have hone : (doFitMe tf w.props w.dom.fitMe).calls.length = 1 := by
    rw [doFitMe_calls_len, if_neg]
    push_neg
    exact ⟨by simp [hA], hT, hH, hW⟩
  unfold doFitMeW
  dsimp only
  rw [List.length_append, hone]

/-- Helper: when the guards pass, draining n scheduled doFitMe callbacks
appends exactly n textFit calls. -/
lemma runFits_calls_len_ready (tf : TextFitOracle) (n : Nat) (w : World)
    (hA : w.props.isAttached = true) (hT : 1 ≤ w.dom.fitMe.innerHTML.length)
    (hH : 0 < w.dom.fitMe.clientHeight) (hW : 0 < w.dom.fitMe.clientWidth) :
    (runFits tf n w).calls.length = w.calls.length + n := by
  induction n generalizing w with
  | zero => rfl
  | succ n ih =>
      rw [runFits]
      have hfr := doFitMeW_frame tf w
      rw [ih (doFitMeW tf w) (by rw [hfr.1]; exact hA) (by rw [hfr.2.1]; exact hT)
        (by rw [hfr.2.1]; exact hH) (by rw [hfr.2.1]; exact hW),
        doFitMeW_calls_len_ready tf w hA hT hH hW]
      omega

/-- Helper: when the guards pass, a tick produces one textFit call per
queued callback. -/
lemma tick_calls_len_ready (tf : TextFitOracle) (w : World)
    (hA : w.props.isAttached = true) (hT : 1 ≤ w.dom.fitMe.innerHTML.length)
    (hH : 0 < w.dom.fitMe.clientHeight) (hW : 0 < w.dom.fitMe.clientWidth) :
    (tick tf w).calls.length = w.calls.length + w.pendingFits :=
  runFits_calls_len_ready tf w.pendingFits { w with pendingFits := 0 } hA hT hH hW

/-- Counterexample to claim C3: two iron-resize events delivered before
the next tick produce two textFit calls, not at most one. Each handler
invocation goes through this.async, which queues a fresh callback every
time; nothing coalesces the queue, so the burst is not debounced to a
single call. -/
theorem C3_counterexample_two_resizes_two_calls :
    (run tfOk [Event.resize, Event.resize, Event.tick] w0).calls.length = 2 ∧
    ¬(run tfOk [Event.resize, Event.resize, Event.tick] w0).calls.length ≤ 1 := by
  decide

/-- Claim C3 as amended: events arriving before the next tick are
coalesced in timing only, not in count: with automatic firing and passing
guards, every event of a pre-tick burst of iron-resize and
text-content-change events (each text change really changing the text)
queues its own doFitMe, and the tick then calls textFit exactly once per
event, not at most once for the whole burst. -/
theorem C3_amended_one_call_per_event (tf : TextFitOracle) (es : List Event)
    (w : World)
    (hm : w.props.manualFire = false) (hp : w.pendingFits = 0)
    (hok : changesEachTime es w.props.text = true)
    (hA : w.props.isAttached = true) (hT : 1 ≤ w.dom.fitMe.innerHTML.length)
    (hH : 0 < w.dom.fitMe.clientHeight) (hW : 0 < w.dom.fitMe.clientWidth) :
    (run tf (es ++ [Event.tick]) w).calls.length =
      w.calls.length + es.length := by
  have h := run_sched_events tf es w hm hok
  rw [run_append,
    show run tf [Event.tick] (run tf es w) = tick tf (run tf es w) from rfl,
    tick_calls_len_ready tf (run tf es w) (h.2.2.1.trans hA)
      (by rw [h.2.2.2]; exact hT) (by rw [h.2.2.2]; exact hH)
      (by rw [h.2.2.2]; exact hW),
    h.2.1, h.1, hp]
  simp

/-- Witness for the amended C3 at a concrete mixed burst of two resize
events and one text change. -/
theorem C3_amended_witness :
    (run tfOk ([Event.resize, Event.setText "bye", Event.resize] ++
        [Event.tick]) w0).calls.length =
      w0.calls.length +
        ([Event.resize, Event.setText "bye", Event.resize] : List Event).length :=
  C3_amended_one_call_per_event tfOk
    [Event.resize, Event.setText "bye", Event.resize] w0 (by decide) (by decide)
    (by decide) (by decide) (by decide) (by decide) (by decide)

namespace Part000

/-!
The second implementation of the element, src/unnamed/part_000. Its
property table, lifecycle callbacks, text observer, resize handler and
doFitMe are embedded here independently from that file (lines 51-189 and
196-265); it shares the data model types above, which both files declare
with identical shapes. The differences between the files are outside
these operations: part_000 registers the iron-resize listener in ready()
instead of connectedCallback(), names the handler _onIronResize, and adds
the GestureEventListeners mixin.
-/

/-- Default property values from the part_000 property table. -/
def defaultProps : Props where
  text := ""
  isAttached := false
  horizontalCenter := false
  verticalCenter := false
  multiLine := false
  detectMultiLine := true
  minFontSize := 6
  maxFontSize := 200
  reProcess := true
  widthOnly := false
  manualFire := false
  alignVertWithFlexbox := false

/-- The options record built in part_000's doFitMe (lines 251-261). -/
def mkOptions (p : Props) : TextFitOptions where
  alignHoriz := p.horizontalCenter
  alignVert := p.verticalCenter
  multiLine := p.multiLine
  detectMultiLine := p.detectMultiLine
  minFontSize := p.minFontSize
  maxFontSize := p.maxFontSize
  reProcess := p.reProcess
  widthOnly := p.widthOnly
  alignVertWithFlexbox := p.alignVertWithFlexbox

/-- The console.debug message from part_000 line 247. -/
def noSizeMsg : String :=
  "textfit-div has no size yet, therefore the text can not be fitted."

/-- part_000's doFitMe (lines 241-265). -/
def doFitMe (tf : TextFitOracle) (p : Props) (el : FitMeEl) : FitResult :=
  if !p.isAttached then
    ⟨p, [], [], []⟩
  else if el.innerHTML.length < 1 then
    ⟨p, [], [], []⟩
  else if el.clientHeight ≤ 0 ∨ el.clientWidth ≤ 0 then
    ⟨p, [], [], [noSizeMsg]⟩
  else
    match tf el (mkOptions p) with
    | Except.ok _ => ⟨p, [(el, mkOptions p)], [], []⟩
    | Except.error e => ⟨p, [(el, mkOptions p)], [e], []⟩

/-- part_000's attached callback (lines 200-209). -/
def attached (w : World) : World :=
  let w1 := { w with props := { w.props with isAttached := true } }
  if w1.props.manualFire then w1
  else { w1 with pendingFits := w1.pendingFits + 1 }

/-- part_000's detached callback (lines 211-214). -/
def detached (w : World) : World :=
  { w with props := { w.props with isAttached := false } }

/-- part_000's _textChanged observer (lines 219-227). -/
def textChanged (newText oldText : String) (w : World) : World :=
  if newText ≠ oldText ∧ !w.props.manualFire then
    let dom :=
      match w.dom.textFittedSpan with
      | some _ => { w.dom with textFittedSpan := some newText }
      | none => w.dom
    { w with dom := dom, pendingFits := w.pendingFits + 1 }
  else w

/-- part_000's _onIronResize handler (lines 232-236). -/
def onIronResize (w : World) : World :=
  if w.props.manualFire then w
  else { w with pendingFits := w.pendingFits + 1 }

end Part000

/-- Claim C10: the two implementations are behaviourally equivalent at
the component interface: identical default values for the twelve
properties (over the shared property record type) and extensionally equal
doFitMe, attached, detached, text-observer and resize-handler operations.
Their differences lie outside these operations: where the iron-resize
listener is registered (ready vs connectedCallback) and the extra
GestureEventListeners mixin. -/
theorem C10_part000_equivalence :
    Part000.defaultProps = defaultProps ∧
    (∀ tf p el, Part000.doFitMe tf p el = doFitMe tf p el) ∧
    (∀ w, Part000.attached w = attached w) ∧
    (∀ w, Part000.detached w = detached w) ∧
    (∀ t u w, Part000.textChanged t u w = textChanged t u w) ∧
    (∀ w, Part000.onIronResize w = onIronResize w) :=
  ⟨rfl, fun _ _ _ => rfl, fun _ => rfl, fun _ => rfl, fun _ _ _ => rfl,
    fun _ => rfl⟩

end TextfitDiv
